import Mathlib

/-!
Shallow embedding of the cumulative agronomic analytics engine of the
farm-monitoring dashboard (the `dynamicSummary` computation of
`ForecastingHub.tsx` together with the component's null guard).

Numbers are modelled as rationals (`ℚ`), missing optional fields as
`Option`, and the JS day-index (which may be negative) as `ℤ`.
-/

namespace ForecastingHub

/-- One risk entry of a forecast day: the `{ type, severity, desc }` shape of
the `risks` array elements in the `AgriForecastDay` interface. -/
structure Risk where
  type : String
  severity : String
  desc : String
  deriving DecidableEq

/-- The fields of one forecast day that the `dynamicSummary` computation
reads.  Fields the code guards against absence (`day.gdd || 0`,
`if (day.risks)`, `currentDay?.crop_stage || 'Unknown'`) are `Option`s. -/
structure AgriForecastDay where
  gdd : Option ℚ
  precipitation : Option ℚ
  risks : Option (List Risk)
  irrigation_needed : Bool
  crop_stage : Option String
  stage_progress : Option ℚ
  deriving DecidableEq

/-- The mutable accumulator variables of the `daysToAnalyze.forEach` loop
(lines 43–49 of `ForecastingHub.tsx`). -/
structure Counters where
  totalGdd : ℚ
  totalPrecipitation : ℚ
  heatStressDays : ℕ
  coldStressDays : ℕ
  droughtStressDays : ℕ
  waterlogDays : ℕ
  irrigationDaysNeeded : ℕ
  deriving DecidableEq

/-- The `yield_estimate` field of the returned summary object. -/
structure YieldEstimate where
  classification : String
  percentage : String
  deriving DecidableEq

/-- The `harvest` field of the returned summary object. -/
structure Harvest where
  days_remaining : ℤ
  readiness_percent : ℚ
  harvest_window : String
  rain_risk : String
  deriving DecidableEq

/-- The summary object returned by `dynamicSummary` (lines 118–142). -/
structure CumulativeSummary where
  total_gdd : ℚ
  avg_daily_gdd : ℚ
  total_precipitation : ℚ
  heat_stress_days : ℕ
  cold_stress_days : ℕ
  drought_stress_days : ℕ
  waterlog_days : ℕ
  irrigation_days_needed : ℕ
  total_risk_days : ℕ
  analysis_period : String
  current_stage : String
  stage_progress : ℚ
  yield_estimate : YieldEstimate
  harvest : Harvest
  recommendations : List String
  deriving DecidableEq

/-- The body of the `day.risks.forEach(risk => ...)` loop (lines 57–62):
four independent `if` statements on `risk.type`. -/
def applyRisk (c : Counters) (r : Risk) : Counters :=
  let c1 := if r.type = "Heat Stress" then
    { c with heatStressDays := c.heatStressDays + 1 } else c
  let c2 := if r.type = "Cold Stress" then
    { c1 with coldStressDays := c1.coldStressDays + 1 } else c1
  let c3 := if r.type = "Drought Stress" then
    { c2 with droughtStressDays := c2.droughtStressDays + 1 } else c2
  if r.type = "Waterlogging" then
    { c3 with waterlogDays := c3.waterlogDays + 1 } else c3

/-- The body of the `daysToAnalyze.forEach(day => ...)` loop (lines 51–66):
accumulate gdd and precipitation, fold the risk entries, count irrigation
days. -/
def applyDay (c : Counters) (day : AgriForecastDay) : Counters :=
  let c1 := { c with
    totalGdd := c.totalGdd + day.gdd.getD 0
    totalPrecipitation := c.totalPrecipitation + day.precipitation.getD 0 }
  let c2 := match day.risks with
    | none => c1
    | some rs => rs.foldl applyRisk c1
  if day.irrigation_needed then
    { c2 with irrigationDaysNeeded := c2.irrigationDaysNeeded + 1 } else c2

/-- All accumulator variables start at 0 (lines 43–49). -/
def initCounters : Counters := ⟨0, 0, 0, 0, 0, 0, 0⟩

/-- The single pass over the analyzed prefix (the `forEach` of line 51). -/
def aggregate (ds : List AgriForecastDay) : Counters :=
  ds.foldl applyDay initCounters

/-- The yield classification ladder (lines 74–86), first match wins. -/
def classifyYield (r : ℚ) : YieldEstimate :=
  if r < (1 : ℚ) / 10 then ⟨"Excellent", "95%"⟩
  else if r < (2 : ℚ) / 10 then ⟨"Good", "85%"⟩
  else if r < (35 : ℚ) / 100 then ⟨"Moderate", "70%"⟩
  else ⟨"At Risk", "55%"⟩

/-- `const targetGdd = 1400` (line 89), the hardcoded rice default. -/
def targetGdd : ℚ := 1400

/-- Lines 91–93: `avgDailyGdd > 0 ? Math.ceil(remainingGdd / avgDailyGdd)
: 999`.  The target is a parameter here because the spec treats it as
configuration; `dynamicSummary` instantiates it with `targetGdd = 1400`. -/
def estimatedDaysRemaining (totalGdd : ℚ) (totalDays : ℕ) (target : ℚ) : ℤ :=
  let remainingGdd := target - totalGdd
  let avgDailyGdd := totalGdd / ((max totalDays 1 : ℕ) : ℚ)
  if avgDailyGdd > 0 then ⌈remainingGdd / avgDailyGdd⌉ else 999

/-- The irrigation-preparation advisory (line 99). -/
def irrigationMsg (irrigationDaysNeeded totalDays : ℕ) : String :=
  s!"💧 Irrigation needed for {irrigationDaysNeeded} of the next {totalDays} days - prepare water supply"

/-- The sufficient-rainfall advisory (line 101). -/
def rainfallMsg (totalDays : ℕ) : String :=
  s!"✅ Sufficient rainfall expected for the next {totalDays} days"

/-- The heat-stress advisory (line 105), pluralized by count. -/
def heatMsg (heatStressDays : ℕ) : String :=
  let plural := if heatStressDays > 1 then "s" else ""
  s!"🌡️ {heatStressDays} heat stress day{plural} detected - consider shade protection"

/-- The drought advisory (line 109), pluralized by count. -/
def droughtMsg (droughtStressDays : ℕ) : String :=
  let plural := if droughtStressDays > 1 then "s" else ""
  s!"🏜️ {droughtStressDays} drought stress day{plural} ahead - increase irrigation frequency"

/-- The generic yield-impact warning (line 113). -/
def yieldImpactMsg : String :=
  "⚠️ Yield may be impacted - review mitigation options"

/-- The positive excellent-conditions message (line 115). -/
def excellentMsg : String :=
  "🌱 Excellent growing conditions - optimal yield expected"

/-- The recommendation builder (lines 96–116): a push sequence on an
initially empty array, each rule independently gated, in program order. -/
def generateRecommendations (irrigationDaysNeeded heatStressDays
    droughtStressDays totalStressDays totalDays : ℕ) : List String :=
  let recommendations : List String := []
  let recommendations :=
    if irrigationDaysNeeded > 0 then
      recommendations ++ [irrigationMsg irrigationDaysNeeded totalDays]
    else
      recommendations ++ [rainfallMsg totalDays]
  let recommendations :=
    if heatStressDays > 0 then recommendations ++ [heatMsg heatStressDays]
    else recommendations
  let recommendations :=
    if droughtStressDays > 0 then recommendations ++ [droughtMsg droughtStressDays]
    else recommendations
  let recommendations :=
    if totalStressDays > 3 then recommendations ++ [yieldImpactMsg]
    else if totalStressDays = 0 then recommendations ++ [excellentMsg]
    else recommendations
  recommendations

/-- `currentDay?.crop_stage || 'Unknown'` (line 129): absent day, absent
stage, and the falsy empty string all fall back to `"Unknown"`. -/
def stageOr (currentDay : Option AgriForecastDay) : String :=
  match currentDay with
  | none => "Unknown"
  | some d =>
    match d.crop_stage with
    | none => "Unknown"
    | some s => if s = "" then "Unknown" else s

/-- `currentDay?.stage_progress || 0` (line 130). -/
def stageProgressOr (currentDay : Option AgriForecastDay) : ℚ :=
  match currentDay with
  | none => 0
  | some d => d.stage_progress.getD 0

/-- The body of the `useMemo` after the null guard (lines 39–142), applied
to the analyzed prefix `daysToAnalyze` and the selected `currentDay`. -/
def dynamicSummaryOfDays (daysToAnalyze : List AgriForecastDay)
    (currentDay : Option AgriForecastDay) : CumulativeSummary :=
  let totalDays := daysToAnalyze.length
  let c := aggregate daysToAnalyze
  let totalStressDays := c.heatStressDays + c.coldStressDays +
    c.droughtStressDays + c.waterlogDays
  let stressFraction : ℚ := (totalStressDays : ℚ) / ((max totalDays 1 : ℕ) : ℚ)
  let gddProgress : ℚ := min 100 (c.totalGdd / targetGdd * 100)
  let avgDailyGdd : ℚ := c.totalGdd / ((max totalDays 1 : ℕ) : ℚ)
  { total_gdd := c.totalGdd
    avg_daily_gdd := avgDailyGdd
    total_precipitation := c.totalPrecipitation
    heat_stress_days := c.heatStressDays
    cold_stress_days := c.coldStressDays
    drought_stress_days := c.droughtStressDays
    waterlog_days := c.waterlogDays
    irrigation_days_needed := c.irrigationDaysNeeded
    total_risk_days := totalStressDays
    analysis_period := s!"{totalDays} days"
    current_stage := stageOr currentDay
    stage_progress := stageProgressOr currentDay
    yield_estimate := classifyYield stressFraction
    harvest :=
      { days_remaining := estimatedDaysRemaining c.totalGdd totalDays targetGdd
        readiness_percent := gddProgress
        harvest_window :=
          if gddProgress > 80 then "Near"
          else if gddProgress > 50 then "Mid-Season" else "Early Season"
        rain_risk :=
          if (c.irrigationDaysNeeded : ℚ) < (totalDays : ℚ) / 2 then "Low"
          else "Moderate" }
    recommendations := generateRecommendations c.irrigationDaysNeeded
      c.heatStressDays c.droughtStressDays totalStressDays totalDays }

/-- The `dynamicSummary` memo (lines 36–143): `null` when `forecast.daily`
is absent or `dayIndex < 0`; otherwise the summary of the prefix
`daily.slice(0, dayIndex + 1)` with `currentDay = daily[dayIndex]`. -/
def dynamicSummary (daily : Option (List AgriForecastDay)) (dayIndex : ℤ) :
    Option CumulativeSummary :=
  match daily with
  | none => none
  | some ds =>
    if dayIndex < 0 then none
    else some (dynamicSummaryOfDays (ds.take (dayIndex.toNat + 1))
      ds[dayIndex.toNat]?)

/-- `const currentDay = forecast.daily?.[dayIndex]` (line 32); a negative
JS array index reads as `undefined`. -/
def currentDayOf (daily : Option (List AgriForecastDay)) (dayIndex : ℤ) :
    Option AgriForecastDay :=
  match daily with
  | none => none
  | some ds => if dayIndex < 0 then none else ds[dayIndex.toNat]?

/-- The summary the component actually exposes: line 145 renders nothing
(`return null`) unless both `currentDay` and `dynamicSummary` are present. -/
def hubSummary (daily : Option (List AgriForecastDay)) (dayIndex : ℤ) :
    Option CumulativeSummary :=
  match currentDayOf daily dayIndex, dynamicSummary daily dayIndex with
  | some _, some s => some s
  | _, _ => none

/-- One day's gdd contribution, `day.gdd || 0`. -/
def gddVal (d : AgriForecastDay) : ℚ := d.gdd.getD 0

/-- One day's precipitation contribution, `day.precipitation || 0`. -/
def precipVal (d : AgriForecastDay) : ℚ := d.precipitation.getD 0

/-- The number of risk entries of one day whose `type` equals `t`. -/
def riskTypeCount (t : String) (d : AgriForecastDay) : ℕ :=
  match d.risks with
  | none => 0
  | some rs => rs.countP (fun r => r.type == t)

/-- One day's contribution to `irrigationDaysNeeded`. -/
def irrigVal (d : AgriForecastDay) : ℕ := if d.irrigation_needed then 1 else 0

/-- A heat-stress risk entry used by the concrete test inputs. -/
def heatRisk : Risk := ⟨"Heat Stress", "High", "hot"⟩

/-- Day 1 of the end-to-end scenario of §8 of the spec. -/
def scenarioDay1 : AgriForecastDay := ⟨some 10, some 0, some [], true, none, none⟩

/-- Day 2 of the end-to-end scenario: 12 gdd, 5 mm rain, one Heat Stress. -/
def scenarioDay2 : AgriForecastDay :=
  ⟨some 12, some 5, some [heatRisk], false, none, none⟩

/-- Day 3 of the end-to-end scenario. -/
def scenarioDay3 : AgriForecastDay := ⟨some 8, some 0, some [], true, none, none⟩

/-- The 3-day series of the end-to-end scenario. -/
def scenarioDaily : List AgriForecastDay :=
  [scenarioDay1, scenarioDay2, scenarioDay3]

/-- A single day carrying five risk entries of the same type, showing that
the per-type counters are per-entry, not per-day. -/
def dupHeatDay : AgriForecastDay :=
  ⟨none, none, some (List.replicate 5 heatRisk), false, none, none⟩

/-- The summary the code computes for the end-to-end scenario at `n = 3`. -/
def scenarioSummary : CumulativeSummary where
  total_gdd := 30
  avg_daily_gdd := 10
  total_precipitation := 5
  heat_stress_days := 1
  cold_stress_days := 0
  drought_stress_days := 0
  waterlog_days := 0
  irrigation_days_needed := 2
  total_risk_days := 1
  analysis_period := "3 days"
  current_stage := "Unknown"
  stage_progress := 0
  yield_estimate := ⟨"Moderate", "70%"⟩
  harvest := ⟨137, 15 / 7, "Early Season", "Moderate"⟩
  recommendations := [irrigationMsg 2 3, heatMsg 1]

end ForecastingHub

namespace ForecastingHub

/-- Each risk entry adds 1 to exactly the counter whose recognized name
matches `risk.type`, and touches nothing else. -/
theorem applyRisk_eq (c : Counters) (r : Risk) :
    applyRisk c r = ⟨c.totalGdd, c.totalPrecipitation,
      c.heatStressDays + (if r.type = "Heat Stress" then 1 else 0),
      c.coldStressDays + (if r.type = "Cold Stress" then 1 else 0),
      c.droughtStressDays + (if r.type = "Drought Stress" then 1 else 0),
      c.waterlogDays + (if r.type = "Waterlogging" then 1 else 0),
      c.irrigationDaysNeeded⟩ := by
  simp only [applyRisk]
  split_ifs <;> rfl

/-- Folding the risk loop over a list of entries counts each recognized
type with `countP`. -/
theorem foldl_applyRisk_eq (rs : List Risk) (c : Counters) :
    rs.foldl applyRisk c = ⟨c.totalGdd, c.totalPrecipitation,
      c.heatStressDays + rs.countP (fun r => r.type == "Heat Stress"),
      c.coldStressDays + rs.countP (fun r => r.type == "Cold Stress"),
      c.droughtStressDays + rs.countP (fun r => r.type == "Drought Stress"),
      c.waterlogDays + rs.countP (fun r => r.type == "Waterlogging"),
      c.irrigationDaysNeeded⟩ := by
  induction rs generalizing c with
  | nil => simp
  | cons r rs ih =>
    rw [List.foldl_cons, applyRisk_eq, ih]
    simp only [List.countP_cons, Counters.mk.injEq, beq_iff_eq, true_and,
      and_true]
    refine ⟨?_, ?_, ?_, ?_⟩ <;> (split_ifs <;> omega)

/-- One iteration of the day loop adds each day's contribution to the
matching counter. -/
theorem applyDay_eq (c : Counters) (d : AgriForecastDay) :
    applyDay c d = ⟨c.totalGdd + gddVal d,
      c.totalPrecipitation + precipVal d,
      c.heatStressDays + riskTypeCount "Heat Stress" d,
      c.coldStressDays + riskTypeCount "Cold Stress" d,
      c.droughtStressDays + riskTypeCount "Drought Stress" d,
      c.waterlogDays + riskTypeCount "Waterlogging" d,
      c.irrigationDaysNeeded + irrigVal d⟩ := by
  obtain ⟨g, p, rks, irr, cs, sp⟩ := d
  simp only [applyDay, gddVal, precipVal, riskTypeCount, irrigVal]
  cases rks with
  | none => cases irr <;> simp
  | some rs => cases irr <;> simp [foldl_applyRisk_eq]

/-- The full day loop computes, in each counter, the sum of the per-day
contributions. -/
theorem foldl_applyDay_eq (ds : List AgriForecastDay) (c : Counters) :
    ds.foldl applyDay c = ⟨c.totalGdd + (ds.map gddVal).sum,
      c.totalPrecipitation + (ds.map precipVal).sum,
      c.heatStressDays + (ds.map (riskTypeCount "Heat Stress")).sum,
      c.coldStressDays + (ds.map (riskTypeCount "Cold Stress")).sum,
      c.droughtStressDays + (ds.map (riskTypeCount "Drought Stress")).sum,
      c.waterlogDays + (ds.map (riskTypeCount "Waterlogging")).sum,
      c.irrigationDaysNeeded + (ds.map irrigVal).sum⟩ := by
  induction ds generalizing c with
  | nil => simp
  | cons d ds ih =>
    rw [List.foldl_cons, applyDay_eq, ih]
    simp only [List.map_cons, List.sum_cons, Counters.mk.injEq]
    refine ⟨?_, ?_, ?_, ?_, ?_, ?_, ?_⟩ <;> ring

/-- Closed form of the aggregator: each counter is the sum over the
analyzed days of that day's contribution. -/
theorem aggregate_eq (ds : List AgriForecastDay) :
    aggregate ds = ⟨(ds.map gddVal).sum, (ds.map precipVal).sum,
      (ds.map (riskTypeCount "Heat Stress")).sum,
      (ds.map (riskTypeCount "Cold Stress")).sum,
      (ds.map (riskTypeCount "Drought Stress")).sum,
      (ds.map (riskTypeCount "Waterlogging")).sum,
      (ds.map irrigVal).sum⟩ := by
  rw [aggregate, foldl_applyDay_eq]
  simp [initCounters]

/-- The push sequence of the recommendation builder equals the ordered
concatenation of its five gated segments. -/
theorem generateRecommendations_segments (irr heat drought total n : ℕ) :
    generateRecommendations irr heat drought total n =
      (if irr > 0 then [irrigationMsg irr n] else [rainfallMsg n]) ++
      (if heat > 0 then [heatMsg heat] else []) ++
      (if drought > 0 then [droughtMsg drought] else []) ++
      (if total > 3 then [yieldImpactMsg]
       else if total = 0 then [excellentMsg] else []) := by
  simp only [generateRecommendations]
  split_ifs <;> simp

/-- The raw counters of the end-to-end scenario: 30 gdd, 5 mm rain, one
heat-stress entry, two irrigation days. -/
theorem scenario_aggregate : aggregate scenarioDaily = ⟨30, 5, 1, 0, 0, 0, 2⟩ := by
  rw [show scenarioDaily = [scenarioDay1, scenarioDay2, scenarioDay3] from rfl,
    aggregate_eq]
  simp only [List.map_cons, List.map_nil, List.sum_cons, List.sum_nil]
  norm_num [gddVal, precipVal, riskTypeCount, irrigVal, scenarioDay1,
    scenarioDay2, scenarioDay3, heatRisk, List.countP_cons, List.countP_nil]
  decide

/-- The end-to-end scenario fully evaluated through `dynamicSummary`. -/
theorem scenario_eval :
    dynamicSummary (some scenarioDaily) 2 = some scenarioSummary := by
  show (if (2 : ℤ) < 0 then none else
    some (dynamicSummaryOfDays (scenarioDaily.take ((2 : ℤ).toNat + 1))
      scenarioDaily[(2 : ℤ).toNat]?)) = some scenarioSummary
  rw [if_neg (by norm_num : ¬ (2 : ℤ) < 0)]
  rw [show scenarioDaily.take ((2 : ℤ).toNat + 1) = scenarioDaily from rfl]
  rw [show scenarioDaily[(2 : ℤ).toNat]? = some scenarioDay3 from rfl]
  congr 1
  simp only [dynamicSummaryOfDays, scenario_aggregate]
  norm_num [scenarioSummary, scenarioDaily, classifyYield, targetGdd,
    estimatedDaysRemaining, generateRecommendations, stageOr, stageProgressOr,
    scenarioDay3]
  rfl

/-- The end-to-end scenario evaluated through the component guard. -/
theorem hub_scenario_eval :
    hubSummary (some scenarioDaily) 2 = some scenarioSummary := by
  rw [hubSummary]
  rw [show currentDayOf (some scenarioDaily) 2 = some scenarioDay3 from rfl,
    scenario_eval]

/-- C1: the summary exposed by the component is absent when the day series
is empty or the prefix length `dayIndex + 1` is less than 1, and present
for a non-empty series with a valid prefix length. -/
theorem C1_summarize_null_behavior (daily : Option (List AgriForecastDay))
    (dayIndex : ℤ) :
    ((daily = some [] ∨ dayIndex + 1 < 1) → hubSummary daily dayIndex = none) ∧
    (∀ ds : List AgriForecastDay, daily = some ds → ds ≠ [] →
      1 ≤ dayIndex + 1 → dayIndex + 1 ≤ (ds.length : ℤ) →
      (hubSummary daily dayIndex).isSome = true) := by
  constructor
  · rintro (rfl | h)
    · simp [hubSummary, currentDayOf]
    · have hneg : dayIndex < 0 := by omega
      rcases daily with _ | ds <;> simp [hubSummary, currentDayOf, hneg]
  · rintro ds rfl hne h1 h2
    have h0 : ¬ dayIndex < 0 := by omega
    have hlt : dayIndex.toNat < ds.length := by omega
    simp [hubSummary, currentDayOf, dynamicSummary, h0,
      List.getElem?_eq_getElem hlt]

/-- C1 witness: the 3-day scenario series with prefix length 3 yields a
present summary, and the vacuous absence condition is also stated. -/
theorem C1_witness :
    ((some scenarioDaily = some [] ∨ (2 : ℤ) + 1 < 1) →
      hubSummary (some scenarioDaily) 2 = none) ∧
    (∀ ds : List AgriForecastDay, some scenarioDaily = some ds → ds ≠ [] →
      1 ≤ (2 : ℤ) + 1 → (2 : ℤ) + 1 ≤ (ds.length : ℤ) →
      (hubSummary (some scenarioDaily) 2).isSome = true) :=
  C1_summarize_null_behavior (some scenarioDaily) 2

/-- C2 counterexample: on the spec's own end-to-end scenario the code
classifies the yield as Moderate/70%, not AtRisk/55% — the stress ratio
1/3 is below the 0.35 threshold. -/
theorem C2_counterexample :
    ¬ (∃ s, dynamicSummary (some scenarioDaily) 2 = some s ∧
        s.yield_estimate = ⟨"At Risk", "55%"⟩) := by
  rintro ⟨s, hs, hy⟩
  rw [scenario_eval] at hs
  injection hs with hs
  subst hs
  exact absurd hy (by decide)

/-- C2 amended: the scenario yields the claimed counters, harvest figures
and recommendation list, but the yield classification is Moderate at 70%. -/
theorem C2_amended_scenario :
    ∃ s, dynamicSummary (some scenarioDaily) 2 = some s ∧
      s.total_gdd = 30 ∧ s.avg_daily_gdd = 10 ∧ s.total_precipitation = 5 ∧
      s.heat_stress_days = 1 ∧ s.irrigation_days_needed = 2 ∧
      s.total_risk_days = 1 ∧ s.yield_estimate = ⟨"Moderate", "70%"⟩ ∧
      s.harvest.days_remaining = 137 ∧
      s.harvest.harvest_window = "Early Season" ∧
      s.recommendations = [irrigationMsg 2 3, heatMsg 1] :=
  ⟨scenarioSummary, scenario_eval, by decide⟩

/-- C3: the yield ladder checks its thresholds in order with strict upper
bounds, first match winning, including both boundary probes. -/
theorem C3_yield_thresholds (r : ℚ) (h : 0 ≤ r) :
    (r < 1 / 10 → classifyYield r = ⟨"Excellent", "95%"⟩) ∧
    (1 / 10 ≤ r → r < 2 / 10 → classifyYield r = ⟨"Good", "85%"⟩) ∧
    (2 / 10 ≤ r → r < 35 / 100 → classifyYield r = ⟨"Moderate", "70%"⟩) ∧
    (35 / 100 ≤ r → classifyYield r = ⟨"At Risk", "55%"⟩) ∧
    classifyYield (99 / 1000) = ⟨"Excellent", "95%"⟩ ∧
    classifyYield (1 / 10) = ⟨"Good", "85%"⟩ := by
  refine ⟨fun h1 => ?_, fun h1 h2 => ?_, fun h1 h2 => ?_, fun h1 => ?_,
    by rw [classifyYield, if_pos (by norm_num : (99 : ℚ) / 1000 < 1 / 10)],
    by rw [classifyYield, if_neg (by norm_num : ¬ (1 : ℚ) / 10 < 1 / 10),
      if_pos (by norm_num : (1 : ℚ) / 10 < 2 / 10)]⟩
  · rw [classifyYield, if_pos h1]
  · rw [classifyYield, if_neg (not_lt.mpr h1), if_pos h2]
  · rw [classifyYield, if_neg (not_lt.mpr (le_trans (by norm_num) h1)),
      if_neg (not_lt.mpr h1), if_pos h2]
  · rw [classifyYield, if_neg (not_lt.mpr (le_trans (by norm_num) h1)),
      if_neg (not_lt.mpr (le_trans (by norm_num) h1)),
      if_neg (not_lt.mpr h1)]

/-- C3 witness: the ladder instantiated at the exact boundary 1/10. -/
theorem C3_witness :
    0 ≤ (1 : ℚ) / 10 ∧
    (((1 : ℚ) / 10 < 1 / 10 → classifyYield (1 / 10) = ⟨"Excellent", "95%"⟩) ∧
     ((1 : ℚ) / 10 ≤ 1 / 10 → (1 : ℚ) / 10 < 2 / 10 →
       classifyYield (1 / 10) = ⟨"Good", "85%"⟩) ∧
     ((2 : ℚ) / 10 ≤ 1 / 10 → (1 : ℚ) / 10 < 35 / 100 →
       classifyYield (1 / 10) = ⟨"Moderate", "70%"⟩) ∧
     ((35 : ℚ) / 100 ≤ 1 / 10 → classifyYield (1 / 10) = ⟨"At Risk", "55%"⟩) ∧
     classifyYield (99 / 1000) = ⟨"Excellent", "95%"⟩ ∧
     classifyYield (1 / 10) = ⟨"Good", "85%"⟩) :=
  ⟨by norm_num, C3_yield_thresholds (1 / 10) (by norm_num)⟩

/-- C4: for nonnegative per-day gdd, the accumulated gdd of a prefix is the
sum of that prefix's gdd values, and growing the prefix by one day never
decreases it. -/
theorem C4_totalGdd_prefix (ds : List AgriForecastDay)
    (h : ∀ d ∈ ds, 0 ≤ gddVal d) (n : ℕ) (h1 : 1 ≤ n) (h2 : n ≤ ds.length) :
    (aggregate (ds.take n)).totalGdd = ((ds.take n).map gddVal).sum ∧
    (n + 1 ≤ ds.length →
      (aggregate (ds.take n)).totalGdd ≤
        (aggregate (ds.take (n + 1))).totalGdd) := by
  refine ⟨by rw [aggregate_eq], fun hn => ?_⟩
  rw [aggregate_eq, aggregate_eq]
  have hlt : n < ds.length := by omega
  rw [List.take_succ, List.getElem?_eq_getElem hlt]
  simp only [Option.toList_some, List.map_append, List.sum_append,
    List.map_cons, List.map_nil, List.sum_cons, List.sum_nil, add_zero]
  have hmem : ds[n] ∈ ds := List.getElem_mem hlt
  exact le_add_of_nonneg_right (h ds[n] hmem)

/-- A list of risk entries with pairwise distinct types holds each type at
most once. -/
theorem countP_type_le_one (rs : List Risk) (t : String)
    (h : (rs.map Risk.type).Nodup) :
    rs.countP (fun r => r.type == t) ≤ 1 := by
  induction rs with
  | nil => simp
  | cons r rs ih =>
    rw [List.map_cons, List.nodup_cons] at h
    rw [List.countP_cons]
    by_cases ht : r.type = t
    · have hz : rs.countP (fun x => x.type == t) = 0 := by
        rw [List.countP_eq_zero]
        intro x hx
        simp only [beq_iff_eq]
        intro hxt
        have hmem : r.type ∈ rs.map Risk.type := by
          rw [ht, ← hxt]
          exact List.mem_map_of_mem Risk.type hx
        exact h.1 hmem
      rw [hz]
      simp [ht]
    · rw [if_neg (by simp [ht])]
      exact Nat.le_trans (by omega) (ih h.2)

/-- A day whose risk list has pairwise distinct types contributes at most 1
to each per-type counter. -/
theorem riskTypeCount_le_one (d : AgriForecastDay)
    (h : ∀ rs, d.risks = some rs → (rs.map Risk.type).Nodup) (t : String) :
    riskTypeCount t d ≤ 1 := by
  cases hr : d.risks with
  | none => simp [riskTypeCount, hr]
  | some rs =>
    have hb := countP_type_le_one rs t (h rs hr)
    simpa [riskTypeCount, hr] using hb

/-- Under the distinct-types condition, each per-type counter is bounded by
the number of analyzed days. -/
theorem sum_riskTypeCount_le (ds : List AgriForecastDay) (t : String)
    (h : ∀ d ∈ ds, ∀ rs, d.risks = some rs → (rs.map Risk.type).Nodup) :
    (ds.map (riskTypeCount t)).sum ≤ ds.length := by
  induction ds with
  | nil => simp
  | cons d ds ih =>
    simp only [List.map_cons, List.sum_cons, List.length_cons]
    have h1 := riskTypeCount_le_one d (h d (List.mem_cons_self d ds)) t
    have h2 := ih (fun d' hd' => h d' (List.mem_cons_of_mem d hd'))
    omega

/-- Every day of the scenario series has pairwise distinct risk types. -/
theorem scenario_nodup :
    ∀ d ∈ scenarioDaily, ∀ rs, d.risks = some rs →
      (rs.map Risk.type).Nodup := by
  intro d hd rs hrs
  fin_cases hd <;> simp_all [scenarioDay1, scenarioDay2, scenarioDay3] <;>
    (subst hrs; simp [heatRisk])

/-- C5 counterexample: one day holding five Heat Stress entries makes
`totalRiskDays = 5 > 4 = 4·n` at prefix length `n = 1`; the code counts
risk entries, not risk-flagged days. -/
theorem C5_counterexample :
    (dynamicSummary (some [dupHeatDay]) 0).map
        (fun s => s.total_risk_days) = some 5 ∧ ¬ (5 ≤ 4 * 1) := by
  constructor
  · decide
  · decide

/-- C5 amended: `totalRiskDays` always equals the sum of the four stress
counters, and is bounded by `4·n` provided each analyzed day's risk list
holds pairwise distinct types. -/
theorem C5_amended_risk_bound (ds : List AgriForecastDay)
    (currentDay : Option AgriForecastDay) (h1 : 1 ≤ ds.length)
    (h : ∀ d ∈ ds, ∀ rs, d.risks = some rs → (rs.map Risk.type).Nodup) :
    (dynamicSummaryOfDays ds currentDay).total_risk_days =
      (dynamicSummaryOfDays ds currentDay).heat_stress_days +
      (dynamicSummaryOfDays ds currentDay).cold_stress_days +
      (dynamicSummaryOfDays ds currentDay).drought_stress_days +
      (dynamicSummaryOfDays ds currentDay).waterlog_days ∧
    (dynamicSummaryOfDays ds currentDay).total_risk_days ≤ 4 * ds.length := by
  refine ⟨rfl, ?_⟩
  have e : (dynamicSummaryOfDays ds currentDay).total_risk_days =
      (ds.map (riskTypeCount "Heat Stress")).sum +
      (ds.map (riskTypeCount "Cold Stress")).sum +
      (ds.map (riskTypeCount "Drought Stress")).sum +
      (ds.map (riskTypeCount "Waterlogging")).sum := by
    show (aggregate ds).heatStressDays + (aggregate ds).coldStressDays +
      (aggregate ds).droughtStressDays + (aggregate ds).waterlogDays = _
    rw [aggregate_eq]
  rw [e]
  have hh := sum_riskTypeCount_le ds "Heat Stress" h
  have hc := sum_riskTypeCount_le ds "Cold Stress" h
  have hd := sum_riskTypeCount_le ds "Drought Stress" h
  have hw := sum_riskTypeCount_le ds "Waterlogging" h
  omega

/-- C5 witness: the amended bound instantiated on the scenario series. -/
theorem C5_witness :
    1 ≤ scenarioDaily.length ∧
    (∀ d ∈ scenarioDaily, ∀ rs, d.risks = some rs →
      (rs.map Risk.type).Nodup) ∧
    ((dynamicSummaryOfDays scenarioDaily none).total_risk_days =
      (dynamicSummaryOfDays scenarioDaily none).heat_stress_days +
      (dynamicSummaryOfDays scenarioDaily none).cold_stress_days +
      (dynamicSummaryOfDays scenarioDaily none).drought_stress_days +
      (dynamicSummaryOfDays scenarioDaily none).waterlog_days ∧
     (dynamicSummaryOfDays scenarioDaily none).total_risk_days ≤
       4 * scenarioDaily.length) :=
  ⟨by decide, scenario_nodup,
    C5_amended_risk_bound scenarioDaily none (by decide) scenario_nodup⟩

/-- C6: with a positive average daily gdd the estimate is the ceiling of
remaining gdd over the average; a zero average gives the sentinel 999. -/
theorem C6_days_remaining (totalGdd : ℚ) (n : ℕ) (target : ℚ)
    (h0 : 0 ≤ totalGdd) (hn : 1 ≤ n) (ht : 0 < target) :
    (0 < totalGdd / ((max n 1 : ℕ) : ℚ) →
      estimatedDaysRemaining totalGdd n target =
        ⌈(target - totalGdd) / (totalGdd / ((max n 1 : ℕ) : ℚ))⌉) ∧
    (totalGdd / ((max n 1 : ℕ) : ℚ) = 0 →
      estimatedDaysRemaining totalGdd n target = 999) := by
  constructor
  · intro hpos
    simp only [estimatedDaysRemaining]
    rw [if_pos hpos]
  · intro hz
    simp only [estimatedDaysRemaining]
    rw [if_neg (by rw [hz]; exact lt_irrefl 0)]

/-- C6 witness: the scenario figures, 30 gdd over 3 days toward 1400. -/
theorem C6_witness :
    0 ≤ (30 : ℚ) ∧ 1 ≤ 3 ∧ 0 < (1400 : ℚ) ∧
    ((0 < (30 : ℚ) / ((max 3 1 : ℕ) : ℚ) →
      estimatedDaysRemaining 30 3 1400 =
        ⌈((1400 : ℚ) - 30) / ((30 : ℚ) / ((max 3 1 : ℕ) : ℚ))⌉) ∧
     ((30 : ℚ) / ((max 3 1 : ℕ) : ℚ) = 0 →
      estimatedDaysRemaining 30 3 1400 = 999)) :=
  ⟨by norm_num, by norm_num, by norm_num,
    C6_days_remaining 30 3 1400 (by norm_num) (by norm_num) (by norm_num)⟩

/-- C7: the recommendation list is exactly the ordered concatenation of the
five gated rules, in the fixed program order. -/
theorem C7_recommendation_order (irr heat drought total n : ℕ) :
    generateRecommendations irr heat drought total n =
      (if irr > 0 then [irrigationMsg irr n] else [rainfallMsg n]) ++
      (if heat > 0 then [heatMsg heat] else []) ++
      (if drought > 0 then [droughtMsg drought] else []) ++
      (if total > 3 then [yieldImpactMsg]
       else if total = 0 then [excellentMsg] else []) :=
  generateRecommendations_segments irr heat drought total n

/-- C8: a risk entry increments exactly the counter of its recognized type,
and an entry of any unrecognized type leaves the counters unchanged. -/
theorem C8_unrecognized_risk_ignored (c : Counters) (r : Risk) :
    (r.type = "Heat Stress" →
      applyRisk c r = { c with heatStressDays := c.heatStressDays + 1 }) ∧
    (r.type = "Cold Stress" →
      applyRisk c r = { c with coldStressDays := c.coldStressDays + 1 }) ∧
    (r.type = "Drought Stress" →
      applyRisk c r = { c with droughtStressDays := c.droughtStressDays + 1 }) ∧
    (r.type = "Waterlogging" →
      applyRisk c r = { c with waterlogDays := c.waterlogDays + 1 }) ∧
    (r.type ≠ "Heat Stress" → r.type ≠ "Cold Stress" →
      r.type ≠ "Drought Stress" → r.type ≠ "Waterlogging" →
      applyRisk c r = c) := by
  refine ⟨fun h => ?_, fun h => ?_, fun h => ?_, fun h => ?_,
    fun h1 h2 h3 h4 => ?_⟩ <;> rw [applyRisk_eq] <;> simp_all

/-- C8 witness: a Heat Stress entry applied to the fresh counters. -/
theorem C8_witness :
    (heatRisk.type = "Heat Stress" →
      applyRisk initCounters heatRisk =
        { initCounters with
          heatStressDays := initCounters.heatStressDays + 1 }) ∧
    (heatRisk.type = "Cold Stress" →
      applyRisk initCounters heatRisk =
        { initCounters with
          coldStressDays := initCounters.coldStressDays + 1 }) ∧
    (heatRisk.type = "Drought Stress" →
      applyRisk initCounters heatRisk =
        { initCounters with
          droughtStressDays := initCounters.droughtStressDays + 1 }) ∧
    (heatRisk.type = "Waterlogging" →
      applyRisk initCounters heatRisk =
        { initCounters with
          waterlogDays := initCounters.waterlogDays + 1 }) ∧
    (heatRisk.type ≠ "Heat Stress" → heatRisk.type ≠ "Cold Stress" →
      heatRisk.type ≠ "Drought Stress" → heatRisk.type ≠ "Waterlogging" →
      applyRisk initCounters heatRisk = initCounters) :=
  C8_unrecognized_risk_ignored initCounters heatRisk

/-- C9: two invocations on the same series and day index agree on every
field of the summary, counters, classification, harvest and the
recommendation list; the embedding is a pure function of its inputs. -/
theorem C9_referential_transparency (daily : Option (List AgriForecastDay))
    (dayIndex : ℤ) (s₁ s₂ : CumulativeSummary)
    (h₁ : hubSummary daily dayIndex = some s₁)
    (h₂ : hubSummary daily dayIndex = some s₂) :
    s₁.total_gdd = s₂.total_gdd ∧ s₁.avg_daily_gdd = s₂.avg_daily_gdd ∧
    s₁.total_precipitation = s₂.total_precipitation ∧
    s₁.heat_stress_days = s₂.heat_stress_days ∧
    s₁.cold_stress_days = s₂.cold_stress_days ∧
    s₁.drought_stress_days = s₂.drought_stress_days ∧
    s₁.waterlog_days = s₂.waterlog_days ∧
    s₁.irrigation_days_needed = s₂.irrigation_days_needed ∧
    s₁.total_risk_days = s₂.total_risk_days ∧
    s₁.analysis_period = s₂.analysis_period ∧
    s₁.current_stage = s₂.current_stage ∧
    s₁.stage_progress = s₂.stage_progress ∧
    s₁.yield_estimate = s₂.yield_estimate ∧
    s₁.harvest = s₂.harvest ∧
    s₁.recommendations = s₂.recommendations := by
  have hss : s₁ = s₂ := by
    rw [h₁] at h₂
    exact Option.some.inj h₂
  subst hss
  exact ⟨rfl, rfl, rfl, rfl, rfl, rfl, rfl, rfl, rfl, rfl, rfl, rfl, rfl,
    rfl, rfl⟩

/-- C9 witness: both invocations on the scenario series agree. -/
theorem C9_witness :
    scenarioSummary.total_gdd = scenarioSummary.total_gdd ∧
    scenarioSummary.avg_daily_gdd = scenarioSummary.avg_daily_gdd ∧
    scenarioSummary.total_precipitation = scenarioSummary.total_precipitation ∧
    scenarioSummary.heat_stress_days = scenarioSummary.heat_stress_days ∧
    scenarioSummary.cold_stress_days = scenarioSummary.cold_stress_days ∧
    scenarioSummary.drought_stress_days = scenarioSummary.drought_stress_days ∧
    scenarioSummary.waterlog_days = scenarioSummary.waterlog_days ∧
    scenarioSummary.irrigation_days_needed =
      scenarioSummary.irrigation_days_needed ∧
    scenarioSummary.total_risk_days = scenarioSummary.total_risk_days ∧
    scenarioSummary.analysis_period = scenarioSummary.analysis_period ∧
    scenarioSummary.current_stage = scenarioSummary.current_stage ∧
    scenarioSummary.stage_progress = scenarioSummary.stage_progress ∧
    scenarioSummary.yield_estimate = scenarioSummary.yield_estimate ∧
    scenarioSummary.harvest = scenarioSummary.harvest ∧
    scenarioSummary.recommendations = scenarioSummary.recommendations :=
  C9_referential_transparency (some scenarioDaily) 2 scenarioSummary
    scenarioSummary hub_scenario_eval hub_scenario_eval

/-- C10: every produced summary has a non-empty recommendation list of at
most four entries, headed by the irrigation advisory when irrigation days
were counted and by the rainfall advisory otherwise. -/
theorem C10_recommendations_shape (ds : List AgriForecastDay) (dayIndex : ℤ)
    (s : CumulativeSummary) (hs : hubSummary (some ds) dayIndex = some s) :
    s.recommendations ≠ [] ∧ s.recommendations.length ≤ 4 ∧
    s.recommendations.head? = some
      (if s.irrigation_days_needed > 0 then
        irrigationMsg s.irrigation_days_needed
          (ds.take (dayIndex.toNat + 1)).length
       else rainfallMsg ((ds.take (dayIndex.toNat + 1)).length)) := by
  by_cases hi : dayIndex < 0
  · rw [hubSummary,
      show currentDayOf (some ds) dayIndex = none from by
        simp [currentDayOf, hi]] at hs
    simp at hs
  · rcases hd : ds[dayIndex.toNat]? with _ | d
    · rw [hubSummary,
        show currentDayOf (some ds) dayIndex = none from by
          simp [currentDayOf, hi, hd]] at hs
      simp at hs
    · rw [hubSummary,
        show currentDayOf (some ds) dayIndex = some d from by
          simp [currentDayOf, hi, hd],
        show dynamicSummary (some ds) dayIndex =
          some (dynamicSummaryOfDays (ds.take (dayIndex.toNat + 1))
            ds[dayIndex.toNat]?) from by simp [dynamicSummary, hi]] at hs
      have hs' := Option.some.inj hs
      subst hs'
      simp only [dynamicSummaryOfDays]
      rw [generateRecommendations_segments]
      refine ⟨?_, ?_, ?_⟩ <;> split_ifs <;> simp

/-- C10 witness: the scenario summary has two recommendations headed by the
irrigation advisory. -/
theorem C10_witness :
    scenarioSummary.recommendations ≠ [] ∧
    scenarioSummary.recommendations.length ≤ 4 ∧
    scenarioSummary.recommendations.head? = some
      (if scenarioSummary.irrigation_days_needed > 0 then
        irrigationMsg scenarioSummary.irrigation_days_needed
          (scenarioDaily.take ((2 : ℤ).toNat + 1)).length
       else rainfallMsg ((scenarioDaily.take ((2 : ℤ).toNat + 1)).length)) :=
  C10_recommendations_shape scenarioDaily 2 scenarioSummary hub_scenario_eval

/-- C4 witness: the scenario series at prefix length 1. -/
theorem C4_witness :
    (∀ d ∈ scenarioDaily, 0 ≤ gddVal d) ∧ 1 ≤ 1 ∧
    1 ≤ scenarioDaily.length ∧
    ((aggregate (scenarioDaily.take 1)).totalGdd =
        ((scenarioDaily.take 1).map gddVal).sum ∧
     (1 + 1 ≤ scenarioDaily.length →
       (aggregate (scenarioDaily.take 1)).totalGdd ≤
         (aggregate (scenarioDaily.take (1 + 1))).totalGdd)) :=
  ⟨by decide, le_refl 1, by decide,
    C4_totalGdd_prefix scenarioDaily (by decide) 1 (le_refl 1) (by decide)⟩

end ForecastingHub
